import Mathlib

/-!
Shallow embedding of `src/super_mario/nes_env.py` (classes `NesEnv` and
`MetaNesEnv`) from the gym-super-mario repository, together with theorems
settling the frozen claims about its specification.

Modelling conventions:
* Python dict telemetry (`self.info`, `self.old_info`) is a record of
  `Option Int` fields; `dict.get(k, d)` is `Option.getD`, raw indexing
  `dict[k]` raises `KeyError` modelled as `Except.error`.
* Machine-independent Python integers are `Int`; level score averages use
  `Rat` because `get_scores` performs true division and `round(x, 4)`.
* The emulator subprocess, FIFO files and the background listener thread are
  modelled by boolean fields of the state; the asynchronous frame counter
  updates performed by the listener during the busy-wait loops are modelled
  by explicit oracle parameters (`frameAdvances`).
* External library calls (`gym.utils.seeding.hash_seed`) are modelled as
  input parameters.
-/

deriving instance DecidableEq for Except

namespace SuperMario

/-- Source line 18: `PENALTY_NOT_MOVING = 1`. -/
def PENALTY_NOT_MOVING : Int := 1

/-- Source line 19: `DEFAULT_REWARD_DEATH = -2`. -/
def DEFAULT_REWARD_DEATH : Int := -2

/-- Source line 20: `DISTANCE_START = 40`. -/
def DISTANCE_START : Int := 40

/-- Source line 21: `STUCK_DURATION = 100`. -/
def STUCK_DURATION : Int := 100

/-- Source lines 30-45: `ACTIONS_MAPPING`, the discrete action index to
button-vector table; a missing key raises `KeyError` (modelled as `none`). -/
def ACTIONS_MAPPING (a : Nat) : Option (List Nat) :=
  if a = 0 then some [0, 0, 0, 0, 0, 0]
  else if a = 1 then some [1, 0, 0, 0, 0, 0]
  else if a = 2 then some [0, 0, 1, 0, 0, 0]
  else if a = 3 then some [0, 1, 0, 0, 0, 0]
  else if a = 4 then some [0, 1, 0, 0, 1, 0]
  else if a = 5 then some [0, 1, 0, 0, 0, 1]
  else if a = 6 then some [0, 1, 0, 0, 1, 1]
  else if a = 7 then some [0, 0, 0, 1, 0, 0]
  else if a = 8 then some [0, 0, 0, 1, 1, 0]
  else if a = 9 then some [0, 0, 0, 1, 0, 1]
  else if a = 10 then some [0, 0, 0, 1, 1, 1]
  else if a = 11 then some [0, 0, 0, 0, 1, 0]
  else if a = 12 then some [0, 0, 0, 0, 0, 1]
  else if a = 13 then some [0, 0, 0, 0, 1, 1]
  else none

/-- The telemetry dictionary (`self.info` / `self.old_info`): the four numeric
keys the reward and termination heuristics read.  A fresh dictionary `{}`
(set by `_reset_info_vars`, source lines 269-272) has every field `none`. -/
structure Info where
  distance : Option Int
  score : Option Int
  life : Option Int
  time : Option Int
deriving DecidableEq

/-- The empty telemetry dictionary `{}` produced by `_reset_info_vars`. -/
def Info.empty : Info := ⟨none, none, none, none⟩

/-- State of a `NesEnv` instance (source lines 60-116), restricted to the
fields the process-supervision, frame-synchronization, reward and pipe logic
read or write.  Field name mapping to the Python attributes:
`is_init` is `is_initialized` (an `0`/`1` integer in the source);
`pipe_out_open` is `self.pipe_out is not None`;
`out_fifo_exists` / `in_fifo_exists` record whether the two FIFO files
created under the temp directory currently exist on disk;
`listener_running` records whether the `_listen_to_incoming_pipe` thread is
alive; `subprocess_live` is `self.subprocess is not None`;
`pipe_name` is the session id (`''` modelled as `0`);
`rom_ok` is `os.path.isfile(self.rom_path)`;
`launch_ok` records whether the emulator launch command returns exit code 0;
`pipe_io_fails` records whether writing to the outbound FIFO raises
`IOError`; `written` accumulates the messages actually written to the
outbound pipe; `screen` abstracts the pixel buffer (`0` = the zero screen). -/
structure NesEnvState where
  is_init : Nat
  is_exiting : Nat
  last_frame : Int
  reward : Int
  episode_reward : Int
  is_finished : Bool
  last_max_distance : Int
  last_max_distance_time : Int
  info : Info
  old_info : Info
  first_step : Bool
  curr_seed : Nat
  screen : Nat
  reward_death : Int
  stuck_duration : Int
  pipe_name : Nat
  disable_in_pipe : Bool
  disable_out_pipe : Bool
  pipe_out_open : Bool
  pipe_io_fails : Bool
  out_fifo_exists : Bool
  in_fifo_exists : Bool
  listener_running : Bool
  subprocess_live : Bool
  rom_ok : Bool
  launch_ok : Bool
  written : List String
deriving DecidableEq

/-- The `"exit"` protocol sentinel (source line 449). -/
def exitMsg : String := "exit"

/-- Error payload for Python `KeyError: 'time'`. -/
def keyErrTime : String := "KeyError: time"

/-- Error payload for Python `KeyError: 'distance'`. -/
def keyErrDistance : String := "KeyError: distance"

/-- Error payload for Python `KeyError: 'score'`. -/
def keyErrScore : String := "KeyError: score"

/-- Error payload for a `KeyError` on `ACTIONS_MAPPING` (source line 331). -/
def keyErrAction : String := "KeyError: action"

/-- Error payload for the missing-ROM `gym.error.Error` (source lines 214-216). -/
def romErr : String := "gym.error.Error: Unable to find ROM"

/-- Error payload for the failed-launch `gym.error.Error` (source line 267). -/
def launchErr : String := "gym.error.Error: Unable to start fceux"

/-- Separator used by `','.join` in the commands message (source line 369). -/
def commaSep : String := ","

/-- Separator between the frame tag and the payload of a protocol message. -/
def hashSep : String := "#"

/-- The action message `'commands_%d#%s'` of source line 369. -/
def commandsMsg (f : Int) (a : List Nat) : String :=
  "commands_" ++ toString f ++ hashSep ++ String.intercalate commaSep (a.map toString)

/-- The first-step seed message `'noop_%d#%d'` of source line 365. -/
def noopMsg (f : Int) (seed : Nat) : String :=
  "noop_" ++ toString f ++ hashSep ++ toString seed

/-- The level-switch message `'changelevel#' + str(level)` of source line 662. -/
def changeLevelMsg (l : Nat) : String :=
  "changelevel" ++ hashSep ++ toString l

/-- Embedding of `_write_to_pipe` (source lines 138-148).  The write is suppressed when the
out-pipe is disabled or `is_exiting == 1`; otherwise the lazily opened write
handle is (re)used and the message written; an `IOError` (modelled by the
`pipe_io_fails` flag) invalidates the cached handle and nothing is written. -/
def write_to_pipe (s : NesEnvState) (message : String) : NesEnvState :=
  if s.disable_out_pipe || s.is_exiting == 1 then s
  else if s.pipe_io_fails then { s with pipe_out_open := false }
  else { s with pipe_out_open := true, written := s.written ++ [message] }

/-- Embedding of `_is_dead` (source lines 278-280):
`self.old_info.get('life', 0) > self.info.get('life', 0)`. -/
def is_dead (s : NesEnvState) : Bool :=
  s.old_info.life.getD 0 > s.info.life.getD 0

/-- Embedding of `_is_stuck` (source lines 282-294).  The distance watermark
(`last_max_distance`, `last_max_distance_time`) is updated exactly when the
current distance strictly exceeds the previous maximum; otherwise the elapsed
emulator time since the watermark is compared against `stuck_duration`.
`self.info['time']` is a raw dictionary access and raises `KeyError` when the
key is absent (both branches read it). -/
def is_stuck (s : NesEnvState) : Except String (Bool × NesEnvState) :=
  let lmdu := max s.last_max_distance (s.info.distance.getD 0)
  if lmdu ≤ s.last_max_distance then
    match s.info.time with
    | none => Except.error keyErrTime
    | some t => Except.ok (decide (s.stuck_duration ≤ |t - s.last_max_distance_time|), s)
  else
    match s.info.time with
    | none => Except.error keyErrTime
    | some t =>
        Except.ok (false, { s with last_max_distance_time := t, last_max_distance := lmdu })

/-- Embedding of `_get_is_finished` (source lines 315-317): `self.is_finished or
self._is_stuck()`.  Python `or` short-circuits, so `_is_stuck` (and its
watermark side effect / possible `KeyError`) runs only when `is_finished` is
false. -/
def get_is_finished (s : NesEnvState) : Except String (Bool × NesEnvState) :=
  if s.is_finished then Except.ok (true, s)
  else is_stuck s

/-- Embedding of `_get_reward` (source lines 296-309).  `self.info['distance']` and
`self.info['score']` are raw accesses (possible `KeyError`);
`self.old_info.get('distance', DISTANCE_START)` and
`self.old_info.get('score', 0)` supply the first-comparison defaults.
Line 307 reads `if self._get_is_finished and (self._is_dead() or
self._is_stuck()):` — `self._get_is_finished` lacks call parentheses, and a
bound method object is always truthy, so the guard reduces to
`_is_dead() or _is_stuck()` (short-circuiting: `_is_stuck` runs only when not
dead). -/
def get_reward (s : NesEnvState) : Except String (Int × NesEnvState) :=
  match s.info.distance, s.info.score with
  | none, _ => Except.error keyErrDistance
  | some _, none => Except.error keyErrScore
  | some dNow, some scNow =>
    let distance_since_last_frame := dNow - s.old_info.distance.getD DISTANCE_START
    let score_since_last_frame := scNow - s.old_info.score.getD 0
    let s1 : NesEnvState :=
      { s with reward := distance_since_last_frame + score_since_last_frame - PENALTY_NOT_MOVING }
    if is_dead s1 then
      Except.ok (s1.reward_death, { s1 with reward := s1.reward_death })
    else
      match is_stuck s1 with
      | Except.error e => Except.error e
      | Except.ok (stuck, s2) =>
          if stuck then Except.ok (s2.reward_death, { s2 with reward := s2.reward_death })
          else Except.ok (s2.reward, s2)

/-- Embedding of `_create_pipes` (source lines 121-136): picks a fresh session id
(`seeding.hash_seed(None) % 2**32`, an external random source modelled by the
`pipeName` parameter), creates the outbound FIFO unless disabled, and starts
the listener thread, which in turn creates the inbound FIFO
(`_listen_to_incoming_pipe`, lines 176-178). -/
def create_pipes (pipeName : Nat) (s : NesEnvState) : NesEnvState :=
  let s1 := { s with pipe_name := pipeName }
  let s2 := if s1.disable_out_pipe then s1 else { s1 with out_fifo_exists := true }
  if s2.disable_in_pipe then s2
  else { s2 with listener_running := true, in_fifo_exists := true }

/-- Embedding of `_launch_fceux` (source lines 212-267): raises `gym.error.Error` if the
ROM path is empty or not a file (`rom_ok`); otherwise creates the pipes,
writes the transient lua script (external filesystem, not tracked), zeroes
the episode counters, launches the subprocess, and on exit code 0
(`launch_ok`) marks the environment initialized and opens the outbound pipe
writer (an `IOError` there leaves the handle `None`); a non-zero exit code
raises.  In the failure branch the source also sets `is_initialized = 0`
before raising; the mutations preceding a raise are not observable through
this `Except`-valued model and only the error is returned. -/
def launch_fceux (pipeName : Nat) (s : NesEnvState) : Except String NesEnvState :=
  if s.rom_ok = false then Except.error romErr
  else
    let s1 := create_pipes pipeName s
    let s2 := { s1 with last_frame := 0, reward := 0, episode_reward := 0,
                        is_finished := false, screen := 0,
                        info := Info.empty, old_info := Info.empty }
    if s2.launch_ok then
      Except.ok { s2 with is_init := 1, subprocess_live := true,
                          pipe_out_open := !s2.disable_out_pipe && !s2.pipe_io_fails }
    else Except.error launchErr

/-- The exit path of the listener thread (source lines 199-210): closes the
inbound pipe handle, removes the inbound FIFO file and resets `is_exiting` to
0.  Sequential scheduling model: once the emulator subprocess is killed the
blocked `readline` hits end-of-file and the thread runs this path during the
grace sleeps of `close` (lines 450 and 461), before `_close_pipes` clears
`path_pipe_in`; under an adverse schedule `_close_pipes` could clear the path
first and the file would survive — the canonical schedule is modelled. -/
def listener_exit (s : NesEnvState) : NesEnvState :=
  if s.listener_running then
    { s with listener_running := false, in_fifo_exists := false, is_exiting := 0 }
  else s

/-- Embedding of `_close_pipes` (source lines 150-168): closes the cached outbound write
handle (`BrokenPipeError` swallowed), removes the outbound FIFO file if it
exists (`OSError` swallowed), and clears the pipe name and paths. -/
def close_pipes (s : NesEnvState) : NesEnvState :=
  let s1 := { s with pipe_out_open := false }
  let s2 := if s1.out_fifo_exists then { s1 with out_fifo_exists := false } else s1
  { s2 with pipe_name := 0 }

/-- Embedding of `close` (source lines 446-469): sets `is_exiting = 1`, calls
`_write_to_pipe('exit')` (note that `_write_to_pipe` returns immediately when
`is_exiting == 1`, line 140), kills the emulator subprocess via the
out-of-band `ps` scan (try/except, so never raises), lets the listener thread
exit (see `listener_exit`), closes and removes the pipes, and zeroes the
episode counters, the screen, the telemetry and `is_initialized`.  Every
fallible operation in the source is wrapped in try/except, so `close` is a
total function. -/
def close (s : NesEnvState) : NesEnvState :=
  let s1 := { s with is_exiting := 1 }
  let s2 := write_to_pipe s1 exitMsg
  let s3 := { s2 with subprocess_live := false }
  let s4 := listener_exit s3
  let s5 := close_pipes s4
  { s5 with last_frame := 0, reward := 0, episode_reward := 0, is_finished := false,
            screen := 0, info := Info.empty, old_info := Info.empty, is_init := 0 }

/-- Embedding of `reset` of `NesEnv` (source lines 408-424): closes first when
initialized, clears the frame counter, rewards, finished flag, marks the next
step as the first step of the episode, zeroes the stuck-detection watermark,
clears the telemetry, relaunches the emulator (under the global launch lock),
runs the (no-op for `NesEnv`) `_start_episode`, and zeroes the screen. -/
def reset (pipeName : Nat) (s : NesEnvState) : Except String NesEnvState :=
  let s1 := if s.is_init = 1 then close s else s
  let s2 := { s1 with last_frame := 0, reward := 0, episode_reward := 0,
                      is_finished := false, first_step := true,
                      last_max_distance := 0, last_max_distance_time := 0,
                      info := Info.empty, old_info := Info.empty }
  match launch_fceux pipeName s2 with
  | Except.error e => Except.error e
  | Except.ok s3 => Except.ok { s3 with screen := 0 }

/-- The tuple built by the stall branch of `_wait_next_frame` (source line
406): `self._get_state(), 0, True, {'ignore': True}`. -/
structure WaitAbort where
  obs : Nat
  reward : Int
  done : Bool
  info_has_ignore : Bool
deriving DecidableEq

/-- Embedding of `_wait_next_frame` (source lines 384-406): busy-polls until `last_frame`
exceeds the issuing frame or the episode is flagged finished.  The listener
thread is the only writer of `last_frame`; whether it advances the counter
past `startFrame` within the 50000-poll cap is modelled by the
`frameAdvances` oracle (on advance the new value is some frame beyond
`startFrame`, modelled as `startFrame + 1`).  On cap exhaustion the emulator
is force-killed through the `ps`-scan (lines 396-405, try/except so it never
raises) and the function returns the terminal tuple with the `'ignore'`
marker — a return value the sole caller (line 372) discards. -/
def wait_next_frame (frameAdvances : Bool) (startFrame : Int) (s : NesEnvState) :
    NesEnvState × Option WaitAbort :=
  if s.disable_in_pipe then (s, none)
  else if s.is_finished then (s, none)
  else if s.is_init = 0 then (s, none)
  else if frameAdvances then ({ s with last_frame := startFrame + 1 }, none)
  else ({ s with subprocess_live := false }, some ⟨s.screen, 0, true, true⟩)

/-- The value returned by `step` (source line 382 and the early returns at
lines 329, 349 and the state object they close over):
`(state, reward, is_finished, info)`.  `info_has_ignore` records whether the
returned info dictionary carries the `'ignore': True` stall marker (none of
the reachable `step` returns sets it — see `wait_next_frame`). -/
structure StepOut where
  state : NesEnvState
  obs : Nat
  reward : Int
  done : Bool
  info : Info
  info_has_ignore : Bool
deriving DecidableEq

/-- The part of `step` between the pre-send wait and `_wait_next_frame`
(source lines 359-369): capture the issuing frame, on the first step of the
episode reseed (`curr_seed = seeding.hash_seed(curr_seed) % 256`, the
external hash modelled by the `hashedSeed` input) and send the seeded no-op
message, then zero the per-step reward and send the commands message. -/
def step_pre_wait (hashedSeed : Nat) (action_mapped : List Nat) (s : NesEnvState) :
    NesEnvState :=
  let startFrame := s.last_frame
  let s1 :=
    if s.first_step then
      let seed := hashedSeed % 256
      write_to_pipe { s with first_step := false, curr_seed := seed } (noopMsg startFrame seed)
    else s
  let s2 := { s1 with reward := 0 }
  write_to_pipe s2 (commandsMsg startFrame action_mapped)

/-- Embedding of `step` (source lines 327-382).  When not initialized it returns the stale
observation, reward 0 and `self._get_is_finished()` (which can raise
`KeyError` out of `_is_stuck`).  Otherwise it looks up the action
(`KeyError` on an invalid index), runs the pre-send wait of lines 336-357
when no frame has ever been seen — under the sequential semantics in which
the listener never updates `last_frame`, that loop performs five
`reset` relaunches (each requiring a valid ROM and a successful launch,
otherwise their `gym.error.Error` propagates) and then gives up with
`self.close()` and `return self._get_state(), 0, True, {}`; the five
intermediate relaunches also set `first_step` and zero the watermark, and
the final `close` erases their other effects — then sends the messages,
waits for the frame (`_wait_next_frame`'s return value is DISCARDED at line
372), computes reward, observation, finished flag and info, and finally
copies `info` into `old_info`. -/
def step (frameAdvances : Bool) (hashedSeed : Nat) (action : Nat) (s : NesEnvState) :
    Except String StepOut :=
  if s.is_init = 0 then
    match get_is_finished s with
    | Except.error e => Except.error e
    | Except.ok (fin, s') => Except.ok ⟨s', s'.screen, 0, fin, Info.empty, false⟩
  else
    match ACTIONS_MAPPING action with
    | none => Except.error keyErrAction
    | some action_mapped =>
      if !s.disable_in_pipe && s.last_frame == 0 then
        if s.rom_ok = false then Except.error romErr
        else if s.launch_ok = false then Except.error launchErr
        else
          let s' := close { s with first_step := true, last_max_distance := 0,
                                   last_max_distance_time := 0 }
          Except.ok ⟨s', s'.screen, 0, true, Info.empty, false⟩
      else
        let startFrame := s.last_frame
        let s1 := step_pre_wait hashedSeed action_mapped s
        let ws := wait_next_frame frameAdvances startFrame s1
        match get_reward ws.1 with
        | Except.error e => Except.error e
        | Except.ok (r, s3) =>
          match get_is_finished s3 with
          | Except.error e => Except.error e
          | Except.ok (fin, s4) =>
            Except.ok ⟨{ s4 with old_info := s4.info }, s4.screen, r, fin, s4.info, false⟩

/-- State of a `MetaNesEnv` instance (source lines 612-626) on top of the
base `NesEnvState`.  Constructor defaults: `average_over=10`,
`passing_grade=600`, `min_tries_for_avg=5`.  The source initializes
`self.scores = [[]] * num_levels`, which aliases one shared empty list; the
aliasing is unobservable because `_start_episode` rebinds a level's slot to a
fresh list before ever mutating it, so plain per-level lists are used here.
`is_new_episode` is the attribute set by `_start_episode` (line 653). -/
structure MetaEnvState where
  base : NesEnvState
  average_over : Nat
  passing_grade : Rat
  min_tries_for_avg : Nat
  num_levels : Nat
  scores : List (List Int)
  locked_levels : List Bool
  level : Nat
  total_reward : Int
  find_new_level : Bool
  is_new_episode : Bool
deriving DecidableEq

/-- Python 3 `round(x)`: round half to even (banker's rounding). -/
def py_round_half_even (x : Rat) : Int :=
  let f := ⌊x⌋
  let r := x - (f : Rat)
  if r < 1 / 2 then f
  else if 1 / 2 < r then f + 1
  else if f % 2 = 0 then f else f + 1

/-- Model of `round(x, 4)` of source line 675, modelled over the rationals (the binary
floating-point representation error of CPython is not modelled; it is
irrelevant at the integral averages the claims evaluate). -/
def round4 (x : Rat) : Rat := (py_round_half_even (x * 10000) : Rat) / 10000

/-- Embedding of `get_scores` (source lines 665-676): per level, the average of the most
recent `min(len(history), average_over)` recorded entries, rounded to 4
decimal places, and `0` for a level with no history.  (With
`average_over = 0` and a non-empty history the source would divide by zero;
`Rat` division by zero yields `0` here — the constructor default is 10.) -/
def get_scores (s : MetaEnvState) : List Rat :=
  (List.range s.num_levels).map (fun i =>
    let sc := s.scores.getD i []
    if 0 < sc.length then
      let level_count := min sc.length s.average_over
      let level_total : Int := (sc.take level_count).foldl (· + ·) 0
      round4 ((level_total : Rat) / (level_count : Rat))
    else 0)

/-- Embedding of `_unlock_levels` (source lines 640-645): compute the averages once, then
for `i` from `num_levels - 2` down to `0`, unlock level `i + 1` when it is
currently locked and level `i`'s average is at least the passing grade.  The
averages are NOT recomputed inside the loop, and the scan reads
`locked_levels[i + 1]`, an index each iteration writes at most once. -/
def unlock_levels (s : MetaEnvState) : MetaEnvState :=
  let averages := get_scores s
  let locked := (List.range (s.num_levels - 1)).reverse.foldl
    (fun lk i =>
      if lk.getD (i + 1) false && decide (s.passing_grade ≤ averages.getD i 0) then
        lk.set (i + 1) false
      else lk)
    s.locked_levels
  { s with locked_levels := locked }

/-- The score-history effect of `MetaNesEnv._start_episode` (source lines
647-654) on one level's history: an empty history is replaced by
`[0] * min_tries_for_avg`; otherwise a zero slot is prepended and the list is
truncated to `min_tries_for_avg`. -/
def start_episode_scores (minTries : Nat) (h : List Int) : List Int :=
  if h.length = 0 then List.replicate minTries 0
  else (0 :: h).take minTries

/-- Embedding of `_start_episode` of `MetaNesEnv` (source lines 647-654): applies
`start_episode_scores` to the active level's history and sets
`is_new_episode`; the base-class `_start_episode` it chains to is a no-op. -/
def meta_start_episode (s : MetaEnvState) : MetaEnvState :=
  { s with scores := s.scores.set s.level (start_episode_scores s.min_tries_for_avg (s.scores.getD s.level [])),
           is_new_episode := true }

/-- Modelled from the spec: "prepend a new zero-initialized score slot to the
active level's history ..., to be overwritten by the terminal reward when the
episode ends" — the code that writes the episode's terminal reward into slot
0 of the active level's history at episode end is not in `src` (only
`_start_episode` and `get_scores` are); overwriting slot 0 of a history is
modelled here faithfully to those words. -/
def record_terminal_reward (r : Int) (h : List Int) : List Int :=
  match h with
  | [] => []
  | _ :: t => r :: t

/-- One curriculum episode's effect on a level's score history: the
episode-start bookkeeping of `_start_episode` followed by the episode-end
overwrite of slot 0 with the terminal reward `r`. -/
def episode_history_update (minTries : Nat) (r : Int) (h : List Int) : List Int :=
  record_terminal_reward r (start_episode_scores minTries h)

/-- The score history of a level after the episodes with terminal rewards
`rs` (earliest first) have run on it, starting from the empty history. -/
def run_episodes (minTries : Nat) (rs : List Int) : List Int :=
  rs.foldl (fun h r => episode_history_update minTries r h) []

/-- Embedding of `reset` of `MetaNesEnv` (source lines 678-695): returns immediately when
a level change is pending (`find_new_level`); otherwise clears the frame
counter, per-step and episode rewards, finished flag and telemetry, launches
the emulator only when not initialized, runs the curriculum
`_start_episode` bookkeeping and zeroes the screen.  Unlike the base
`reset`, it does NOT close first and does NOT touch `first_step`,
`last_max_distance` or `last_max_distance_time`. -/
def meta_reset (pipeName : Nat) (s : MetaEnvState) : Except String MetaEnvState :=
  if s.find_new_level then Except.ok s
  else
    let b := { s.base with last_frame := 0, reward := 0, episode_reward := 0,
                           is_finished := false, info := Info.empty, old_info := Info.empty }
    match (if b.is_init = 0 then launch_fceux pipeName b else Except.ok b) with
    | Except.error e => Except.error e
    | Except.ok b' =>
      let s' := meta_start_episode { s with base := b' }
      Except.ok { s' with base := { s'.base with screen := 0 } }

/-- The state of a freshly constructed `NesEnv` (source lines 63-116 and
`_configure`, lines 117-119): not initialized, empty telemetry dictionaries,
zero counters and watermark, no ROM configured yet, no pipes, no listener.
(`curr_seed` is set by `seed()` from an external hash; its value is
irrelevant to every claim and `0` is used.) -/
def initState : NesEnvState :=
  { is_init := 0, is_exiting := 0, last_frame := 0, reward := 0, episode_reward := 0,
    is_finished := false, last_max_distance := 0, last_max_distance_time := 0,
    info := Info.empty, old_info := Info.empty, first_step := false, curr_seed := 0,
    screen := 0, reward_death := DEFAULT_REWARD_DEATH, stuck_duration := STUCK_DURATION,
    pipe_name := 0, disable_in_pipe := false, disable_out_pipe := false,
    pipe_out_open := false, pipe_io_fails := false, out_fifo_exists := false,
    in_fifo_exists := false, listener_running := false, subprocess_live := false,
    rom_ok := false, launch_ok := true, written := [] }

/-- A live mid-episode session: launched, listener attached, both FIFOs on
disk, five frames processed, telemetry present with Mario at distance 10,
score 0, life 2, emulator time 0. -/
def liveState : NesEnvState :=
  { initState with
      is_init := 1, last_frame := 5, rom_ok := true, pipe_name := 1234,
      pipe_out_open := true, out_fifo_exists := true, in_fifo_exists := true,
      listener_running := true, subprocess_live := true,
      info := ⟨some 10, some 0, some 2, some 0⟩,
      old_info := ⟨some 10, some 0, some 2, some 0⟩ }

/-- A live state in which Mario just died mid-episode: the life counter
dropped from 2 to 1 while the episode is NOT flagged finished, distance
advanced 40 → 56 and score 0 → 100. -/
def deathState : NesEnvState :=
  { liveState with
      is_finished := false,
      old_info := ⟨some 40, some 0, some 2, some 0⟩,
      info := ⟨some 56, some 100, some 1, some 10⟩ }

/-- The state `deathState` with the episode flagged finished: a terminal death step. -/
def deathFinishedState : NesEnvState :=
  { deathState with is_finished := true }

/-- A live state with no prior snapshot (`old_info = {}`), current distance
56 and score 100, exercising the `DISTANCE_START` / `0` defaults of
`_get_reward`. -/
def formulaState : NesEnvState :=
  { liveState with
      old_info := Info.empty,
      info := ⟨some 56, some 100, none, some 0⟩ }

/-- Watermark probe: maximum distance 50 reached at emulator time 100, and
the current snapshot still at distance 50 with time 199 — elapsed 99. -/
def stuckProbe99 : NesEnvState :=
  { liveState with
      last_max_distance := 50, last_max_distance_time := 100,
      info := ⟨some 50, some 0, some 2, some 199⟩ }

/-- The probe `stuckProbe99` one emulator time unit later — elapsed 100. -/
def stuckProbe100 : NesEnvState :=
  { stuckProbe99 with info := ⟨some 50, some 0, some 2, some 200⟩ }

/-- The probe `stuckProbe99` with the current distance 60 strictly beyond the
watermark 50. -/
def stuckProbeAdvance : NesEnvState :=
  { stuckProbe99 with info := ⟨some 60, some 0, some 2, some 199⟩ }

/-- The curriculum state of the spec's unlock-cascade example: 3 levels,
passing grade 600, histories giving averages `[650, 620, 0]`, locks
`[false, true, true]`, constructor-default `average_over = 10` and
`min_tries_for_avg = 5`. -/
def metaState6 : MetaEnvState :=
  { base := liveState, average_over := 10, passing_grade := 600,
    min_tries_for_avg := 5, num_levels := 3,
    scores := [[650], [620], []], locked_levels := [false, true, true],
    level := 0, total_reward := 0, find_new_level := false, is_new_episode := false }

/-! ## Helper lemmas -/

/-- The function `close` leaves the list of messages written to the outbound pipe
unchanged: its `_write_to_pipe('exit')` call is suppressed by the
`is_exiting == 1` guard that `close` itself just set. -/
theorem close_written_eq (s : NesEnvState) : (close s).written = s.written := by
  cases hl : s.listener_running <;> cases ho : s.out_fifo_exists <;>
    simp [close, write_to_pipe, listener_exit, close_pipes, hl, ho]

/-- Field bookkeeping of `close`: what it resets, what it removes, and what
it leaves untouched. -/
theorem close_fields (s : NesEnvState) :
    (close s).rom_ok = s.rom_ok ∧ (close s).launch_ok = s.launch_ok ∧
    (close s).first_step = s.first_step ∧
    (close s).last_max_distance = s.last_max_distance ∧
    (close s).last_max_distance_time = s.last_max_distance_time ∧
    (close s).out_fifo_exists = false ∧
    (close s).listener_running = false ∧
    (close s).in_fifo_exists = (!s.listener_running && s.in_fifo_exists) ∧
    (close s).is_init = 0 ∧ (close s).subprocess_live = false := by
  cases hl : s.listener_running <;> cases ho : s.out_fifo_exists <;>
    simp [close, write_to_pipe, listener_exit, close_pipes, hl, ho]

/-- Evaluation of the curriculum averages on the unlock-cascade example:
one try of 650 on level 0, one try of 620 on level 1, no tries on level 2. -/
theorem get_scores_metaState6_eval : get_scores metaState6 = [650, 620, 0] := by
  norm_num [get_scores, metaState6, round4, py_round_half_even, List.range_succ]

/-- Evaluation of `_unlock_levels` on the unlock-cascade example: both level
1 (off level 0's average 650) and level 2 (off the still-locked level 1's
average 620) unlock in the single downward pass. -/
theorem unlock_levels_metaState6_eval :
    (unlock_levels metaState6).locked_levels = [false, false, false] := by
  simp only [unlock_levels, get_scores_metaState6_eval]
  norm_num [metaState6, List.range_succ]

/-! ## Claim theorems -/

/-- Claim C2 (code_bug evaluation): on a step where the life counter dropped
from 2 to 1 while the episode is NOT finished, `_get_reward` nevertheless
returns the configured death penalty instead of the distance/score formula
value 115, because line 307 tests the bound method `self._get_is_finished`
(always truthy) instead of calling it. -/
theorem get_reward_overrides_when_unfinished :
    deathState.is_finished = false ∧
    get_reward deathState =
      Except.ok (DEFAULT_REWARD_DEATH, { deathState with reward := DEFAULT_REWARD_DEATH }) ∧
    56 - 40 + (100 - 0) - PENALTY_NOT_MOVING = (115 : Int) ∧
    DEFAULT_REWARD_DEATH ≠ (115 : Int) := by
  refine ⟨rfl, ?_, by decide, by decide⟩
  decide

/-- Claim C3 (code_bug evaluation): on a live session whose frame counter
never advances after the action is sent, `_wait_next_frame` builds the
terminal tuple `(state, 0, True, {'ignore': True})` — but `step` (line 372)
discards that return value, and the step result delivered to the caller has
`done = false` and an info dictionary without the stall marker. -/
theorem step_discards_stall_abort :
    (wait_next_frame false liveState.last_frame
        (step_pre_wait 0 [0, 0, 0, 0, 0, 0] liveState)).2 =
      some ⟨liveState.screen, 0, true, true⟩ ∧
    (step false 0 0 liveState).toOption.map (fun o => (o.done, o.info_has_ignore)) =
      some (false, false) := by
  refine ⟨?_, ?_⟩ <;> decide

/-- Claim C4 (code_bug evaluation): stepping a never-launched environment is
NOT a no-op — the early-return branch of `step` (line 329) calls
`self._get_is_finished()`, which reaches the raw access
`self.info['time']` in `_is_stuck` (line 289) on the empty telemetry
dictionary and raises `KeyError`. -/
theorem step_uninitialized_keyerror :
    step false 0 0 initState = Except.error keyErrTime := by
  decide

/-- Claim C5 (code_bug evaluation): `close` never writes the final `"exit"`
protocol message: for every state, the list of messages written to the
outbound pipe is unchanged across `close`, because `close` sets
`is_exiting = 1` (line 448) before calling `_write_to_pipe('exit')`
(line 449), and `_write_to_pipe` returns immediately when
`is_exiting == 1` (line 140). -/
theorem close_suppresses_exit_write (s : NesEnvState) :
    (close s).written = s.written :=
  close_written_eq s

/-- Claim C6 (counterexample): with 3 levels, passing grade 600, averages
`[650, 620, 0]` and locks `[unlocked, locked, locked]`, one run of
`_unlock_levels` does NOT yield `[unlocked, unlocked, locked]`: the downward
scan unlocks level 2 off the still-locked level 1's average in the same
pass. -/
theorem unlock_levels_counterexample :
    (unlock_levels metaState6).locked_levels ≠ [false, false, true] := by
  rw [unlock_levels_metaState6_eval]
  decide

/-- Claim C6 (amended): with 3 levels, passing grade 600, averages
`[650, 620, 0]` and locks `[false, true, true]`, one run of
`_unlock_levels` yields `[false, false, false]`: scanning from the highest
level downward over the averages computed once before the loop, a locked
level `i+1` unlocks iff level `i`'s average is at least the passing grade,
regardless of whether level `i` is itself still locked, so several
consecutive locked levels can unlock in a single evaluation. -/
theorem unlock_levels_amended :
    (unlock_levels metaState6).locked_levels = [false, false, false] :=
  unlock_levels_metaState6_eval

/-- Claim C9: calling `close()` twice in a row on a live session produces no
error (every fallible operation inside `close` is guarded in the source, so
it is modelled as a total function, and the second call finds every guard
already satisfied) and leaves neither of the session's FIFO files on disk;
the second call adds no pipe message, keeps the subprocess torn down and the
environment uninitialized. -/
theorem close_twice_no_fifos (s : NesEnvState) (hl : s.listener_running = true) :
    (close s).out_fifo_exists = false ∧ (close s).in_fifo_exists = false ∧
    (close (close s)).out_fifo_exists = false ∧
    (close (close s)).in_fifo_exists = false ∧
    (close (close s)).written = (close s).written ∧
    (close (close s)).is_init = 0 ∧ (close (close s)).subprocess_live = false := by
  have h1 := close_fields s
  have h2 := close_fields (close s)
  refine ⟨h1.2.2.2.2.2.1, ?_, h2.2.2.2.2.2.1, ?_, close_written_eq (close s),
    h2.2.2.2.2.2.2.2.2.1, h2.2.2.2.2.2.2.2.2.2⟩
  · rw [h1.2.2.2.2.2.2.2.1, hl]
    simp
  · rw [h2.2.2.2.2.2.2.2.1, h1.2.2.2.2.2.2.2.1, hl]
    simp

/-- Witness for C9 at a concrete live session. -/
theorem close_twice_no_fifos_witness :
    liveState.listener_running = true ∧
    ((close liveState).out_fifo_exists = false ∧
      (close liveState).in_fifo_exists = false ∧
      (close (close liveState)).out_fifo_exists = false ∧
      (close (close liveState)).in_fifo_exists = false ∧
      (close (close liveState)).written = (close liveState).written ∧
      (close (close liveState)).is_init = 0 ∧
      (close (close liveState)).subprocess_live = false) :=
  ⟨rfl, close_twice_no_fifos liveState rfl⟩

/-- The function `is_stuck` never changes the `reward` field of the state it returns. -/
theorem is_stuck_reward_eq (s : NesEnvState) (b : Bool) (s' : NesEnvState)
    (h : is_stuck s = Except.ok (b, s')) : s'.reward = s.reward := by
  simp only [is_stuck] at h
  cases ht : s.info.time <;> rw [ht] at h <;> split at h <;>
    simp only [reduceCtorEq, Except.ok.injEq, Prod.mk.injEq] at h <;>
    rw [← h.2]

/-- The function `launch_fceux` on a valid ROM with a successful subprocess launch
returns a state whose `first_step` flag and stuck-detection watermark are
those of its input (it resets neither). -/
theorem launch_preserves_fields (p : Nat) (s : NesEnvState)
    (h3 : s.rom_ok = true) (h4 : s.launch_ok = true) :
    (launch_fceux p s).toOption.map
        (fun u => (u.first_step, u.last_max_distance, u.last_max_distance_time)) =
      some (s.first_step, s.last_max_distance, s.last_max_distance_time) := by
  cases hdo : s.disable_out_pipe <;> cases hdi : s.disable_in_pipe <;>
    simp [launch_fceux, create_pipes, Except.toOption, h3, h4, hdo, hdi]

/-- Claim C7 (counterexample): at a terminal death step (episode finished,
life 2 → 1) with distance 40 → 56 and score 0 → 100, `_get_reward` returns
the death penalty −2, not the distance/score/penalty formula value 115 —
the per-step reward is NOT always the formula. -/
theorem get_reward_formula_counterexample :
    get_reward deathFinishedState =
      Except.ok (DEFAULT_REWARD_DEATH,
        { deathFinishedState with reward := DEFAULT_REWARD_DEATH }) ∧
    DEFAULT_REWARD_DEATH ≠ 56 - 40 + (100 - 0) - PENALTY_NOT_MOVING := by
  refine ⟨?_, by decide⟩
  decide

/-- Claim C7 (amended): whenever the death/stuck override does not fire
(Mario is not dead and the stuck check, which also consults the watermark
state, reports not stuck), the per-step reward equals
`(distance_now − distance_prev) + (score_now − score_prev) − movement_penalty`
with `distance_prev` defaulting to `DISTANCE_START = 40` and `score_prev` to
`0` when no prior snapshot exists. -/
theorem get_reward_formula_amended (s : NesEnvState) (dn sn : Int) (s' : NesEnvState)
    (hd : s.info.distance = some dn) (hs : s.info.score = some sn)
    (hdead : is_dead s = false)
    (hstuck : is_stuck { s with reward :=
        dn - s.old_info.distance.getD DISTANCE_START + (sn - s.old_info.score.getD 0) -
          PENALTY_NOT_MOVING } = Except.ok (false, s')) :
    get_reward s = Except.ok (dn - s.old_info.distance.getD DISTANCE_START +
      (sn - s.old_info.score.getD 0) - PENALTY_NOT_MOVING, s') := by
  have hrw := is_stuck_reward_eq _ _ _ hstuck
  have hdead1 : is_dead { s with reward :=
      dn - s.old_info.distance.getD DISTANCE_START + (sn - s.old_info.score.getD 0) -
        PENALTY_NOT_MOVING } = false := hdead
  simp only [get_reward, hd, hs, hdead1, Bool.false_eq_true, if_false, hstuck]
  rw [hrw]

/-- Witness for C7 at the spec's concrete instance: no prior snapshot
(`old_info = {}`, so `distance_prev` defaults to 40 and `score_prev` to 0),
`distance_now = 56`, `score_now = 100`: the reward is `16 + 100 - 1 = 115`
and the watermark advances to 56. -/
theorem get_reward_formula_amended_witness :
    get_reward formulaState =
      Except.ok (115, { formulaState with
        reward := 115, last_max_distance := 56, last_max_distance_time := 0 }) := by
  have h := get_reward_formula_amended formulaState 56 100
    { formulaState with reward := 115, last_max_distance := 56, last_max_distance_time := 0 }
    rfl rfl (by decide) (by decide)
  exact h.trans (by decide)

/-- Claim C8: with the emulator time present in the telemetry and
`stuck_duration = 100`, `_is_stuck` (i) leaves the state unchanged and
reports stuck exactly when the elapsed emulator time since the watermark
reaches 100, provided the current distance does not exceed the watermark,
and (ii) updates the watermark (maximum distance and its time) and reports
not-stuck exactly when the current distance strictly exceeds the previous
maximum. -/
theorem is_stuck_watermark_spec (s : NesEnvState) (t : Int)
    (ht : s.info.time = some t) (hdur : s.stuck_duration = 100) :
    (s.info.distance.getD 0 ≤ s.last_max_distance →
      is_stuck s = Except.ok (decide ((100 : Int) ≤ |t - s.last_max_distance_time|), s)) ∧
    (s.last_max_distance < s.info.distance.getD 0 →
      is_stuck s = Except.ok (false, { s with
        last_max_distance := s.info.distance.getD 0, last_max_distance_time := t })) := by
  constructor
  · intro hle
    have hmax : max s.last_max_distance (s.info.distance.getD 0) = s.last_max_distance :=
      max_eq_left hle
    simp only [is_stuck, hmax, le_refl, if_true, ht, hdur]
  · intro hlt
    have hmax : max s.last_max_distance (s.info.distance.getD 0) = s.info.distance.getD 0 :=
      max_eq_right hlt.le
    have hnle : ¬ s.info.distance.getD 0 ≤ s.last_max_distance := not_le.mpr hlt
    simp only [is_stuck, hmax, if_neg hnle, ht]

/-- Witness for C8: with `stuck_duration = 100` and the watermark at
distance 50 / time 100, the check is false at elapsed time 99, true at
elapsed time 100, and a probe at distance 60 advances the watermark and is
not stuck. -/
theorem is_stuck_watermark_spec_witness :
    is_stuck stuckProbe99 = Except.ok (false, stuckProbe99) ∧
    is_stuck stuckProbe100 = Except.ok (true, stuckProbe100) ∧
    is_stuck stuckProbeAdvance = Except.ok (false, { stuckProbeAdvance with
      last_max_distance := 60, last_max_distance_time := 199 }) := by
  refine ⟨?_, ?_, ?_⟩
  · exact ((is_stuck_watermark_spec stuckProbe99 199 rfl rfl).1 (by decide)).trans (by decide)
  · exact ((is_stuck_watermark_spec stuckProbe100 200 rfl rfl).1 (by decide)).trans (by decide)
  · exact ((is_stuck_watermark_spec stuckProbeAdvance 199 rfl rfl).2 (by decide)).trans (by decide)

/-- Claim C1 (counterexample): after a single curriculum episode with
terminal reward 7 on a fresh level (with `min_tries_for_avg = 5`), the
history is `[7, 0, 0, 0, 0]` — zero-filled padding, not the sequence `[7]`
of the episode terminal rewards recorded so far. -/
theorem scores_history_counterexample : run_episodes 5 [7] ≠ [(7 : Int)] := by
  decide

/-- Claim C1 (amended): after at least one episode, a level's history has
fixed length `min_tries_for_avg`; its first `min(number of episodes,
min_tries_for_avg)` entries are the most recent episode terminal rewards,
most-recent-first, with older entries dropped, and the remaining entries are
the zero padding installed by `_start_episode` on the first episode. -/
theorem run_episodes_spec (m : Nat) (rs : List Int) (h : rs ≠ []) :
    run_episodes m rs = rs.reverse.take m ++ List.replicate (m - rs.length) 0 := by
  induction rs using List.reverseRecOn with
  | nil => exact absurd rfl h
  | append_singleton rs r ih =>
    have hstep : run_episodes m (rs ++ [r]) =
        episode_history_update m r (run_episodes m rs) := by
      simp [run_episodes, List.foldl_append]
    rcases eq_or_ne rs [] with hrs | hrs
    · subst hrs
      cases m with
      | zero =>
        simp [hstep, run_episodes, episode_history_update, start_episode_scores,
          record_terminal_reward]
      | succ k =>
        simp [hstep, run_episodes, episode_history_update, start_episode_scores,
          record_terminal_reward, List.replicate_succ]
    · have hlen : 0 < rs.length := List.length_pos.mpr hrs
      rw [hstep, ih hrs]
      cases m with
      | zero =>
        simp [episode_history_update, start_episode_scores, record_terminal_reward]
      | succ k =>
        have hne : ¬ (rs.reverse.take (k + 1) ++
            List.replicate (k + 1 - rs.length) 0).length = 0 := by
          simp only [List.length_append, List.length_take, List.length_reverse,
            List.length_replicate]
          omega
        simp only [episode_history_update, start_episode_scores, if_neg hne,
          List.take_succ_cons, record_terminal_reward]
        simp only [List.reverse_append, List.reverse_cons, List.reverse_nil,
          List.nil_append, List.singleton_append, List.take_succ_cons,
          List.length_append, List.length_singleton]
        refine congrArg (fun l => r :: l) ?_
        rw [List.take_append_eq_append_take, List.take_take, List.take_replicate,
          List.length_take, List.length_reverse]
        have h1 : min k (k + 1) = k := by omega
        have h2 : min (k - min (k + 1) rs.length) (k + 1 - rs.length) =
            k + 1 - (rs.length + 1) := by omega
        rw [h1, h2]
        rfl

/-- Witness for C1 (amended) after two episodes with rewards 7 then 9:
the history is `[9, 7, 0, 0, 0]`. -/
theorem run_episodes_spec_witness : run_episodes 5 [7, 9] = [9, 7, 0, 0, 0] := by
  rw [run_episodes_spec 5 [7, 9] (by decide)]
  decide

/-- Claim C10: a curriculum (`MetaNesEnv`) `reset` with no pending level
change and an initialized emulator succeeds and leaves the stuck-detection
watermark (`last_max_distance`, `last_max_distance_time`) and the
`first_step` flag unchanged while clearing the frame counter, the per-step
and episode rewards, the finished flag and the telemetry dictionaries;
whereas the base `NesEnv.reset` (on a valid ROM with a successful launch)
sets `first_step := true` and zeroes both watermark fields. -/
theorem meta_reset_preserves_watermark (s : MetaEnvState) (p q : Nat) (t : NesEnvState)
    (h1 : s.find_new_level = false) (h2 : s.base.is_init = 1)
    (h3 : t.rom_ok = true) (h4 : t.launch_ok = true) :
    (meta_reset p s).toOption.map
        (fun u => (u.base.last_max_distance, u.base.last_max_distance_time,
          u.base.first_step, u.base.last_frame, u.base.reward, u.base.episode_reward,
          u.base.is_finished, u.base.info, u.base.old_info)) =
      some (s.base.last_max_distance, s.base.last_max_distance_time, s.base.first_step,
        0, 0, 0, false, Info.empty, Info.empty) ∧
    (reset q t).toOption.map
        (fun u => (u.first_step, u.last_max_distance, u.last_max_distance_time)) =
      some (true, 0, 0) := by
  constructor
  · simp [meta_reset, h1, h2, meta_start_episode, Except.toOption]
  · have hc := close_fields t
    have hrom : (if t.is_init = 1 then close t else t).rom_ok = true := by
      split
      · rw [hc.1, h3]
      · exact h3
    have hlch : (if t.is_init = 1 then close t else t).launch_ok = true := by
      split
      · rw [hc.2.1, h4]
      · exact h4
    have hL := launch_preserves_fields q
      { (if t.is_init = 1 then close t else t) with
        last_frame := 0, reward := 0, episode_reward := 0, is_finished := false,
        first_step := true, last_max_distance := 0, last_max_distance_time := 0,
        info := Info.empty, old_info := Info.empty } hrom hlch
    simp only [reset]
    cases hE : launch_fceux q
        { (if t.is_init = 1 then close t else t) with
          last_frame := 0, reward := 0, episode_reward := 0, is_finished := false,
          first_step := true, last_max_distance := 0, last_max_distance_time := 0,
          info := Info.empty, old_info := Info.empty } with
    | error e => rw [hE] at hL; simp [Except.toOption] at hL
    | ok s3 =>
      rw [hE] at hL
      simp only [Except.toOption, Option.map_some] at hL ⊢
      exact hL

/-- Witness for C10 at the concrete curriculum state `metaState6` (episode
running, no pending level change) and the concrete live base state. -/
theorem meta_reset_preserves_watermark_witness :
    (meta_reset 1 metaState6).toOption.map
        (fun u => (u.base.last_max_distance, u.base.last_max_distance_time,
          u.base.first_step, u.base.last_frame, u.base.reward, u.base.episode_reward,
          u.base.is_finished, u.base.info, u.base.old_info)) =
      some (metaState6.base.last_max_distance, metaState6.base.last_max_distance_time,
        metaState6.base.first_step, 0, 0, 0, false, Info.empty, Info.empty) ∧
    (reset 2 liveState).toOption.map
        (fun u => (u.first_step, u.last_max_distance, u.last_max_distance_time)) =
      some (true, 0, 0) :=
  meta_reset_preserves_watermark metaState6 1 2 liveState rfl rfl rfl rfl

end SuperMario
